import Mathlib

/-!
Verification of the fluxy query builder (src/fluxy/fluxy.py): a shallow
embedding of its data model (pipes, ranges, stage operations, the boolean
clause algebra) and of its rendering functions, with theorems checking the
specified behaviour. Python dataclasses become structures or inductives,
the overloaded entry points `pipe` and `range` become total functions over
an explicit argument-shape type, and code that raises returns `Except`.
Python string helpers (str.split, str.strip, str.join, str.capitalize) are
modelled by structurally recursive functions over character lists so that
every rendering is computable by the kernel.
-/

namespace Fluxy

/-- Model of Python str.split with a one-character separator: splitting the
empty text yields one empty piece, and each separator occurrence starts a
new piece. -/
def splitChar (sep : Char) : List Char → List (List Char)
  | [] => [[]]
  | c :: cs =>
    let rest := splitChar sep cs
    if c = sep then [] :: rest
    else
      match rest with
      | [] => [[c]]
      | r :: rs => (c :: r) :: rs

/-- Model of Python str.strip(): drop leading and trailing whitespace. -/
def stripList (l : List Char) : List Char :=
  ((l.dropWhile Char.isWhitespace).reverse.dropWhile Char.isWhitespace).reverse

/-- Model of Python sep.join(pieces). -/
def joinSep (sep : String) : List String → String
  | [] => ""
  | [x] => x
  | x :: xs => x ++ sep ++ joinSep sep xs

/-- fluxy.dedent: split on newlines, strip every line, join with newlines. -/
def dedent (val : String) : String :=
  joinSep "\n" ((splitChar '\n' val.data).map (fun line => String.mk (stripList line)))

/-- Model of the Python datetime values the repository renders: a naive or
UTC wall-clock timestamp (the tests only build UTC datetimes). -/
structure Datetime where
  year : Nat
  month : Nat
  day : Nat
  hour : Nat
  minute : Nat
  second : Nat
  microsecond : Nat
  utc : Bool
deriving DecidableEq, Repr

/-- Zero-padded decimal rendering of a field of an ISO timestamp. -/
def padNum (width : Nat) (n : Nat) : String :=
  let s := toString n
  String.mk (List.replicate (width - s.length) '0') ++ s

/-- Model of Python datetime.isoformat() for the datetimes above: the
microsecond part is omitted when zero, and a UTC value carries the
offset text +00:00. -/
def Datetime.isoformat (d : Datetime) : String :=
  padNum 4 d.year ++ "-" ++ padNum 2 d.month ++ "-" ++ padNum 2 d.day ++ "T" ++
  padNum 2 d.hour ++ ":" ++ padNum 2 d.minute ++ ":" ++ padNum 2 d.second ++
  (if d.microsecond = 0 then "" else "." ++ padNum 6 d.microsecond) ++
  (if d.utc then "+00:00" else "")

/-- Model of Python datetime.timedelta: the three stored components (Python
normalises a timedelta so that 0 <= seconds < 86400 and
0 <= microseconds < 1000000, with days carrying the sign). -/
structure Timedelta where
  days : Int
  seconds : Int
  microseconds : Int
deriving DecidableEq, Repr

/-- fluxy.bool_to_flux. -/
def bool_to_flux (val : Bool) : String :=
  if val then "true" else "false"

/-- fluxy.LiteralStringExpression. -/
structure LiteralStringExpression where
  value : String
deriving DecidableEq, Repr

/-- LiteralStringExpression.to_flux. -/
def LiteralStringExpression.to_flux (e : LiteralStringExpression) : String :=
  "\"" ++ e.value ++ "\""

/-- fluxy.Expression (an alias of LiteralStringExpression in the source). -/
abbrev Expression := LiteralStringExpression

/-- The dynamically typed values fluxy.parse_expression can receive: a
string, or any value of another type (strOf covers the supported case,
otherVal every unsupported one). -/
inductive PyValue
  | strOf (s : String)
  | otherVal
deriving DecidableEq, Repr

/-- fluxy.parse_expression: a string becomes a LiteralStringExpression,
anything else raises. -/
def parse_expression : PyValue → Except String Expression
  | .strOf s => .ok ⟨s⟩
  | .otherVal => .error "didn't recognize expression"

/-- fluxy.BinaryOperation. -/
inductive BinaryOperation
  | OR
  | AND
deriving DecidableEq, Repr

/-- The Enum value of a BinaryOperation. -/
def BinaryOperation.value : BinaryOperation → String
  | .OR => "or"
  | .AND => "and"

/-- fluxy.ComparisonOperation. -/
inductive ComparisonOperation
  | EQ
  | NE
deriving DecidableEq, Repr

/-- The Enum value of a ComparisonOperation. -/
def ComparisonOperation.value : ComparisonOperation → String
  | .EQ => "=="
  | .NE => "!="

/-- fluxy.Clause and its three dataclass subclasses LiteralClause,
ComparisonClause and BinaryClause, as one expression tree. -/
inductive Clause
  | literal (literal : Bool)
  | comparison (operation : ComparisonOperation) (name : String) (expression : Expression)
  | binary (operation : BinaryOperation) (left : Clause) (right : Clause)
deriving DecidableEq, Repr

/-- The precedence property of each Clause subclass: LiteralClause 0,
ComparisonClause 7, BinaryClause 9 for AND and 10 for OR. -/
def Clause.precedence : Clause → Nat
  | .literal _ => 0
  | .comparison _ _ _ => 7
  | .binary op _ _ =>
    match op with
    | .AND => 9
    | .OR => 10

/-- Clause.should_parenthesize: self.precedence < other.precedence. -/
def Clause.should_parenthesize (self other : Clause) : Bool :=
  decide (self.precedence < other.precedence)

/-- Clause.to_flux. A BinaryClause renders each side through
ensure_precedence (inlined here so the recursion is structural); the
separate definition of ensure_precedence below is proven to agree. -/
def Clause.to_flux : Clause → String
  | .literal b => bool_to_flux b
  | .comparison op name e => "r[\"" ++ name ++ "\"] " ++ op.value ++ " " ++ e.to_flux
  | .binary op l r =>
    (if Clause.should_parenthesize (.binary op l r) l then "(" ++ l.to_flux ++ ")" else l.to_flux)
    ++ (" " ++ op.value ++ " ")
    ++ (if Clause.should_parenthesize (.binary op l r) r then "(" ++ r.to_flux ++ ")" else r.to_flux)

/-- Clause.ensure_precedence: parenthesize the rendering of `other` exactly
when should_parenthesize says so. -/
def Clause.ensure_precedence (self other : Clause) : String :=
  if self.should_parenthesize other then "(" ++ other.to_flux ++ ")" else other.to_flux

/-- fluxy.Clausable = Clause | bool. -/
inductive Clausable
  | clause (c : Clause)
  | bool (b : Bool)
deriving DecidableEq, Repr

/-- Clause.parse: a bool coerces to a LiteralClause, a Clause passes
through. -/
def Clause.parse : Clausable → Clause
  | .bool b => .literal b
  | .clause c => c

/-- Clause.__and__: BinaryClause(AND, self, Clause.parse(other)). -/
def Clause.and (self : Clause) (other : Clausable) : Clause :=
  .binary .AND self (Clause.parse other)

/-- Clause.__or__: BinaryClause(OR, self, Clause.parse(other)). -/
def Clause.or (self : Clause) (other : Clausable) : Clause :=
  .binary .OR self (Clause.parse other)

/-- fluxy.Field. -/
structure Field where
  name : String
deriving DecidableEq, Repr

/-- Field.__eq__: ComparisonClause(EQ, name, parse_expression(other)); the
parse of a non-string right-hand side raises. -/
def Field.eq (f : Field) (other : PyValue) : Except String Clause :=
  (parse_expression other).map (fun e => Clause.comparison .EQ f.name e)

/-- Field.__ne__: ComparisonClause(NE, name, parse_expression(other)). -/
def Field.ne (f : Field) (other : PyValue) : Except String Clause :=
  (parse_expression other).map (fun e => Clause.comparison .NE f.name e)

/-- fluxy.Row: a stand-in object with no state of its own. -/
structure Row where
deriving DecidableEq, Repr

/-- Row.__getattr__ and Row.__getitem__: any name yields Field(name). -/
def Row.getItem (_ : Row) (name : String) : Field :=
  ⟨name⟩

/-- The dynamically typed values PipedFunction._to_flux can receive: each
supported type has a constructor, and otherVal stands for a value of any
type outside the supported set (an int, a None, ...). -/
inductive FluxValue
  | strOf (s : String)
  | boolOf (b : Bool)
  | listOf (l : List String)
  | timedeltaOf (t : Timedelta)
  | datetimeOf (d : Datetime)
  | enumOf (value : String)
  | otherVal
deriving DecidableEq, Repr

/-- PipedFunction._list_to_flux. -/
def PipedFunction._list_to_flux (list : List String) : String :=
  "[" ++ joinSep ", " (list.map (fun key => "\"" ++ key ++ "\"")) ++ "]"

/-- The inner _part helper of PipedFunction._timedelta_to_flux. -/
def PipedFunction._part (value : Int) (unit : String) : String :=
  if value ≠ 0 then toString value ++ unit else ""

/-- PipedFunction._timedelta_to_flux: join of the days, seconds and
microseconds parts. -/
def PipedFunction._timedelta_to_flux (every : Timedelta) : String :=
  PipedFunction._part every.days "d" ++ PipedFunction._part every.seconds "s"
    ++ PipedFunction._part every.microseconds "us"

/-- PipedFunction._to_flux: the generic stage-value formatter. The Python
match statement has no catch-all arm, so for a value outside the supported
set the function falls off the end and returns None: that outcome is
`none` here. -/
def PipedFunction._to_flux : FluxValue → Option String
  | .strOf s => some ("\"" ++ s ++ "\"")
  | .boolOf b => some (bool_to_flux b)
  | .listOf l => some (PipedFunction._list_to_flux l)
  | .timedeltaOf t => some (PipedFunction._timedelta_to_flux t)
  | .datetimeOf d => some d.isoformat
  | .enumOf v => some v
  | .otherVal => none

/-- Model of Python f-string interpolation of a possibly-None value: None
renders as the text None. -/
def fstr : Option String → String
  | some s => s
  | none => "None"

/-- PipedFunction._snakecase_to_camelcase: capitalize each underscore-split
part (Python str.capitalize uppercases the first character and lowercases
the rest), join, then lowercase the first character. -/
def capitalizeList : List Char → List Char
  | [] => []
  | c :: cs => Char.toUpper c :: cs.map Char.toLower

/-- Lowercase the first character: name[0:1].lower() + name[1:]. -/
def lowerFirst : List Char → List Char
  | [] => []
  | c :: cs => Char.toLower c :: cs

/-- PipedFunction._snakecase_to_camelcase. -/
def PipedFunction._snakecase_to_camelcase (val : String) : String :=
  String.mk (lowerFirst (((splitChar '_' val.data).map capitalizeList).foldl (· ++ ·) []))

/-- The function property of PipedFunction: the class name with its first
character lowercased. -/
def PipedFunction.functionName (className : String) : String :=
  String.mk (lowerFirst className.data)

/-- PipedFunction.to_flux, with the reflective field enumeration made
explicit: each declared field, in declaration order, renders as
camelCasedName: formattedValue, and the argument list is wrapped in
functionName(...) and dedented. -/
def PipedFunction.render (function : String) (fieldList : List (String × FluxValue)) : String :=
  dedent (function ++ "(" ++
    joinSep ", " (fieldList.map
      (fun fv => PipedFunction._snakecase_to_camelcase fv.1 ++ ": " ++ fstr (PipedFunction._to_flux fv.2)))
    ++ ")")

/-- fluxy.From. -/
structure From where
  bucket : String
deriving DecidableEq, Repr

/-- From.to_flux. -/
def From.to_flux (f : From) : String :=
  "from(bucket: \"" ++ f.bucket ++ "\")"

/-- fluxy.Range: the absolute range stage, a PipedFunction with declared
fields start and stop. -/
structure Range where
  start : Datetime
  stop : Datetime
deriving DecidableEq, Repr

/-- Range.to_flux through the generic PipedFunction renderer. -/
def Range.to_flux (r : Range) : String :=
  PipedFunction.render (PipedFunction.functionName "Range")
    [("start", .datetimeOf r.start), ("stop", .datetimeOf r.stop)]

/-- fluxy.RangeOffset: the relative range stage, a PipedFunction with the
declared field start and the overridden function name range. -/
structure RangeOffset where
  start : Timedelta
deriving DecidableEq, Repr

/-- RangeOffset.to_flux through the generic PipedFunction renderer. -/
def RangeOffset.to_flux (r : RangeOffset) : String :=
  PipedFunction.render "range" [("start", .timedeltaOf r.start)]

/-- The Python union Range | RangeOffset. -/
inductive RangeArg
  | abs (r : Range)
  | rel (r : RangeOffset)
deriving DecidableEq, Repr

/-- Rendering of either range variant. -/
def RangeArg.to_flux : RangeArg → String
  | .abs r => r.to_flux
  | .rel r => r.to_flux

/-- fluxy.WindowOperation. -/
inductive WindowOperation
  | MEAN
  | LAST
  | SUM
deriving DecidableEq, Repr

/-- The Enum value of a WindowOperation. -/
def WindowOperation.value : WindowOperation → String
  | .MEAN => "mean"
  | .LAST => "last"
  | .SUM => "sum"

/-- fluxy.Order. -/
inductive Order
  | DESC
  | ASC
deriving DecidableEq, Repr

/-- The stage operations a Pipe carries: one constructor per class of the
source that implements the Operation protocol and can be piped after a
range (the range constructor appears too, because the Pipe-plus-operation
arm of fluxy.pipe accepts any second argument and appends it). Fields are
the declared dataclass fields, in order. -/
inductive Operation
  | range (r : RangeArg)
  | filter (clause : Clause)
  | pivot (row_key : List String) (column_key : List String) (value_column : String)
  | aggregateWindow (every : Timedelta) (fn : WindowOperation) (create_empty : Bool)
  | drop (columns : List String)
  | keep (columns : List String)
  | map (fn : String)
  | sum (column : String)
  | mean (column : String)
  | last
  | limit (n : Int) (offset : Int)
  | sort (columns : List String) (sort_order : Order)
  | literal (expression : String)
deriving DecidableEq, Repr

/-- The to_flux method of each stage operation, as written by each class of
the source: generic PipedFunction stages (Range, Pivot, AggregateWindow,
Drop, Keep) go through the reflective renderer; Filter, Map, Sum, Mean,
Last, Limit, Sort and Literal use their fixed templates. -/
def Operation.to_flux : Operation → String
  | .range r => r.to_flux
  | .filter c => dedent ("filter(fn: (r) => " ++ c.to_flux ++ ")")
  | .pivot rk ck vc =>
    PipedFunction.render (PipedFunction.functionName "Pivot")
      [("row_key", .listOf rk), ("column_key", .listOf ck), ("value_column", .strOf vc)]
  | .aggregateWindow e f ce =>
    PipedFunction.render (PipedFunction.functionName "AggregateWindow")
      [("every", .timedeltaOf e), ("fn", .enumOf f.value), ("create_empty", .boolOf ce)]
  | .drop cols => PipedFunction.render (PipedFunction.functionName "Drop") [("columns", .listOf cols)]
  | .keep cols => PipedFunction.render (PipedFunction.functionName "Keep") [("columns", .listOf cols)]
  | .map fn => "map(fn: " ++ fn ++ ")"
  | .sum col => "sum(column: \"" ++ col ++ "\")"
  | .mean col => "mean(column: \"" ++ col ++ "\")"
  | .last => "last()"
  | .limit n offset => "limit(n: " ++ toString n ++ ", offset: " ++ toString offset ++ ")"
  | .sort cols so =>
    "sort(columns: [\"" ++ joinSep "\", \"" cols ++ "\"], desc: "
      ++ (if so = Order.DESC then "true" else "false") ++ ")"
  | .literal e => e

/-- fluxy.PartialPipe. -/
structure PartialPipe where
  initial : From
deriving DecidableEq, Repr

/-- fluxy.Pipe. -/
structure Pipe where
  initial : From
  range : RangeArg
  operations : List Operation
deriving DecidableEq, Repr

/-- Pipe.to_flux: join the renderings of the initial source, the range and
every operation with the separator newline-pipe. -/
def Pipe.to_flux (p : Pipe) : String :=
  joinSep "\n|> " (p.initial.to_flux :: p.range.to_flux :: p.operations.map Operation.to_flux)

/-- The runtime type of the first argument of fluxy.pipe:
From | Pipe | PartialPipe. -/
inductive PipeFirst
  | fromArg (f : From)
  | partialArg (p : PartialPipe)
  | pipeArg (p : Pipe)
deriving DecidableEq, Repr

/-- The runtime type of the second argument of fluxy.pipe:
Range | RangeOffset | Operation | None. -/
inductive PipeSecond
  | noneArg
  | rangeArg (r : RangeArg)
  | opArg (o : Operation)
deriving DecidableEq, Repr

/-- The return type of fluxy.pipe: Pipe | PartialPipe. -/
inductive PipeResult
  | toPipe (p : Pipe)
  | toPartial (p : PartialPipe)
deriving DecidableEq, Repr

/-- fluxy.pipe: the overloaded builder, as the source's match over
(first, second) with *ops collected into a list. The Pipe-plus-operation
arm is a capture pattern in the source, so a Pipe followed by a range
value also lands there (the range is appended as an operation); the only
raising arm is the final catch-all, reached for From or PartialPipe
followed by a plain operation. -/
def pipe (first : PipeFirst) (second : PipeSecond) (ops : List Operation) :
    Except String PipeResult :=
  match first, second with
  | .fromArg f, .noneArg => .ok (.toPartial ⟨f⟩)
  | .fromArg f, .rangeArg r => .ok (.toPipe ⟨f, r, ops⟩)
  | .partialArg p, .noneArg => .ok (.toPartial p)
  | .partialArg p, .rangeArg r => .ok (.toPipe ⟨p.initial, r, ops⟩)
  | .pipeArg p, .noneArg => .ok (.toPipe p)
  | .pipeArg p, .rangeArg r => .ok (.toPipe ⟨p.initial, p.range, p.operations ++ Operation.range r :: ops⟩)
  | .pipeArg p, .opArg o => .ok (.toPipe ⟨p.initial, p.range, p.operations ++ o :: ops⟩)
  | _, _ => .error "invalid types"

/-- fluxy.from_bucket. -/
def from_bucket (bucket : String) : From :=
  ⟨bucket⟩

/-- fluxy.range: a timedelta start yields a RangeOffset (whatever stop is),
a datetime start with a datetime stop yields a Range, and a datetime start
without a stop falls to the raising catch-all arm. -/
def range (start : Timedelta ⊕ Datetime) (stop : Option Datetime) : Except String RangeArg :=
  match start with
  | .inl t => .ok (.rel ⟨t⟩)
  | .inr d =>
    match stop with
    | some s => .ok (.abs ⟨d, s⟩)
    | none => .error "invalid types"

/-- fluxy.FilterCallback: Callable[[Row], Clausable], with the exceptions a
callback can raise made explicit. -/
abbrev FilterCallback := Row → Except String Clausable

/-- fluxy.filter: invoke the callback once on a fresh Row and wrap the
parsed result into a Filter stage. -/
def filter (callback : FilterCallback) : Except String Operation :=
  (callback ⟨⟩).map (fun v => Operation.filter (Clause.parse v))

/-- Model of functools.reduce with no initializer: raises on an empty
iterable, otherwise folds from the first element. -/
def reduce (f : α → α → α) : List α → Except String α
  | [] => .error "reduce() of empty iterable with no initial value"
  | x :: xs => .ok (xs.foldl f x)

/-- fluxy.conform: AND together one equality comparison per key/value pair
of the mapping (in mapping order), via reduce over row[key] == value. -/
def conform (value : List (String × String)) : Row → Except String Clause :=
  fun row => do
    let items ← value.mapM (fun kv => Field.eq (Row.getItem row kv.1) (PyValue.strOf kv.2))
    reduce (fun acc cur => Clause.and acc (Clausable.clause cur)) items

/-- fluxy.any: OR together Clause.parse(test(value)(row)) over the values
(in list order), via reduce. -/
def any (test : T → Row → Except String Clausable) (values : List T) : Row → Except String Clause :=
  fun row => do
    let items ← values.mapM (fun value => (test value row).map Clause.parse)
    reduce (fun acc cur => Clause.or acc (Clausable.clause cur)) items

/-! ## Theorems -/

/-- No string equals itself wrapped in parentheses (the lengths differ). -/
theorem paren_wrap_ne (x : String) : x ≠ "(" ++ x ++ ")" := by
  intro h
  have hlen := congrArg String.length h
  rw [String.length_append, String.length_append] at hlen
  have h1 : String.length "(" = 1 := rfl
  have h2 : String.length ")" = 1 := rfl
  omega

/-- Every clause's precedence is at most 10, the precedence of OR. -/
theorem Clause.precedence_le_ten (c : Clause) : c.precedence ≤ 10 := by
  cases c with
  | literal b => simp only [Clause.precedence]; omega
  | comparison op n e => simp only [Clause.precedence]; omega
  | binary op l r => cases op <;> (simp only [Clause.precedence]; omega)

/-- C4: pipe applied to a Pipe alone returns that Pipe unchanged, and pipe
applied to a PartialPipe alone returns that PartialPipe unchanged, so in
particular the result renders identically to the input. -/
theorem C4_pipe_identity (p : Pipe) (q : PartialPipe) :
    pipe (.pipeArg p) .noneArg [] = .ok (.toPipe p)
    ∧ pipe (.partialArg q) .noneArg [] = .ok (.toPartial q) :=
  ⟨rfl, rfl⟩

/-- C5: building in two steps equals building in one step: piping a source
and a range and then piping two operations onto the resulting Pipe gives
the very Pipe that piping source, range and both operations at once gives,
so the two renderings are identical. -/
theorem C5_pipe_two_step (s : From) (r : RangeArg) (op1 op2 : Operation) :
    pipe (.fromArg s) (.rangeArg r) [] = .ok (.toPipe (Pipe.mk s r []))
    ∧ pipe (.pipeArg (Pipe.mk s r [])) (.opArg op1) [op2]
      = pipe (.fromArg s) (.rangeArg r) [op1, op2]
    ∧ pipe (.fromArg s) (.rangeArg r) [op1, op2] = .ok (.toPipe (Pipe.mk s r [op1, op2])) :=
  ⟨rfl, rfl, rfl⟩

/-- C6 counterexample: the range constructor called with a duration start
and a timestamp stop does not fail: the timedelta arm of the match fires
first whatever stop is, and a RangeOffset is returned. -/
theorem C6_range_counterexample :
    range (Sum.inl ⟨1, 0, 0⟩) (some ⟨2020, 1, 1, 0, 0, 0, 0, true⟩)
      = .ok (.rel ⟨⟨1, 0, 0⟩⟩) :=
  rfl

/-- C6 amended: the range constructor returns a relative range whenever the
start argument is a duration (any stop argument is ignored), an absolute
range for two timestamps, and fails with the invalid-arguments error
exactly when start is a timestamp and stop is absent. -/
theorem C6_range_amended (t : Timedelta) (d s : Datetime) (o : Option Datetime) :
    range (Sum.inl t) o = .ok (.rel ⟨t⟩)
    ∧ range (Sum.inr d) (some s) = .ok (.abs ⟨d, s⟩)
    ∧ range (Sum.inr d) none = .error "invalid types" :=
  ⟨rfl, rfl, rfl⟩

/-- C7: evaluation of the generic stage-value formatter at a value outside
the supported set: the match falls through, the Python function returns
None (no exception is raised), and an f-string interpolating that result
produces the text None instead of failing fast. -/
theorem C7_unsupported_value_formatter :
    PipedFunction._to_flux FluxValue.otherVal = none
    ∧ fstr (PipedFunction._to_flux FluxValue.otherVal) = "None" :=
  ⟨rfl, rfl⟩

/-- C8: the duration formatter concatenates, in order days, seconds,
microseconds, a part value-then-unit for each non-zero component, a zero
component contributing nothing; 60 seconds render as 60s, -7 days as -7d,
and the zero duration as the empty string. -/
theorem C8_timedelta_format (t : Timedelta) :
    PipedFunction._timedelta_to_flux t
      = (if t.days ≠ 0 then toString t.days ++ "d" else "")
        ++ (if t.seconds ≠ 0 then toString t.seconds ++ "s" else "")
        ++ (if t.microseconds ≠ 0 then toString t.microseconds ++ "us" else "")
    ∧ PipedFunction._timedelta_to_flux ⟨0, 60, 0⟩ = "60s"
    ∧ PipedFunction._timedelta_to_flux ⟨-7, 0, 0⟩ = "-7d"
    ∧ PipedFunction._timedelta_to_flux ⟨0, 0, 0⟩ = "" :=
  ⟨rfl, by decide, by decide, rfl⟩

/-- C9: pipe never mutates its input (the embedding is pure, and every
equation below rebuilds the result from the unchanged fields of the
input): re-piping a Pipe alone returns it; appending an operation (or a
range value, which the capture arm appends as an operation) returns a new
Pipe whose operation list is the old list with the new operations after
it, in argument order; and a PartialPipe is likewise read, never written. -/
theorem C9_pipe_no_mutation (p : Pipe) (q : PartialPipe) (ops : List Operation) :
    pipe (.pipeArg p) .noneArg ops = .ok (.toPipe p)
    ∧ (∀ o : Operation, pipe (.pipeArg p) (.opArg o) ops
        = .ok (.toPipe ⟨p.initial, p.range, p.operations ++ o :: ops⟩))
    ∧ (∀ r : RangeArg, pipe (.pipeArg p) (.rangeArg r) ops
        = .ok (.toPipe ⟨p.initial, p.range, p.operations ++ Operation.range r :: ops⟩))
    ∧ pipe (.partialArg q) .noneArg ops = .ok (.toPartial q)
    ∧ (∀ r : RangeArg, pipe (.partialArg q) (.rangeArg r) ops = .ok (.toPipe ⟨q.initial, r, ops⟩)) :=
  ⟨rfl, fun _ => rfl, fun _ => rfl, rfl, fun _ => rfl⟩

/-- C3: rendering a Pipe joins the renderings of its source, its range and
its operations, in order, with the separator newline-pipe-space; and the
pipe built from the bucket source and the absolute 2020-to-2022 range
renders to exactly the two expected lines. -/
theorem C3_pipe_render (p : Pipe) :
    p.to_flux
      = joinSep "\n|> " (p.initial.to_flux :: p.range.to_flux :: p.operations.map Operation.to_flux)
    ∧ pipe (.fromArg ⟨"bucket"⟩)
        (.rangeArg (.abs ⟨⟨2020, 1, 1, 0, 0, 0, 0, true⟩, ⟨2022, 1, 1, 0, 0, 0, 0, true⟩⟩)) []
      = .ok (.toPipe ⟨⟨"bucket"⟩, .abs ⟨⟨2020, 1, 1, 0, 0, 0, 0, true⟩, ⟨2022, 1, 1, 0, 0, 0, 0, true⟩⟩, []⟩)
    ∧ (Pipe.mk ⟨"bucket"⟩ (.abs ⟨⟨2020, 1, 1, 0, 0, 0, 0, true⟩, ⟨2022, 1, 1, 0, 0, 0, 0, true⟩⟩) []).to_flux
      = "from(bucket: \"bucket\")\n|> range(start: 2020-01-01T00:00:00+00:00, stop: 2022-01-01T00:00:00+00:00)" :=
  ⟨rfl, rfl, by decide⟩

/-- C1 counterexample: for the BinaryClause (true or false) and true, the
OR side has precedence 10 and the parent AND has precedence 9, so the
side's precedence is not strictly less than the parent's; yet the rendering
does wrap that side in parentheses. The claimed equivalence is therefore
false at this input. -/
theorem C1_parenthesization_counterexample :
    ¬ ((Clause.ensure_precedence
          (.binary .AND (.binary .OR (.literal true) (.literal false)) (.literal true))
          (.binary .OR (.literal true) (.literal false))
        = "(" ++ (Clause.binary .OR (.literal true) (.literal false)).to_flux ++ ")")
      ↔ (Clause.binary .OR (.literal true) (.literal false)).precedence
        < (Clause.binary .AND (.binary .OR (.literal true) (.literal false)) (.literal true)).precedence) := by
  decide

/-- C1 amended: rendering a BinaryClause renders its left and right sides
through ensure_precedence, each side appearing either bare or wrapped, and
a side is wrapped in parentheses if and only if that side's precedence
number is strictly greater than the parent's (with precedences literal 0,
comparison 7, AND 9, OR 10). -/
theorem C1_parenthesization_amended (op : BinaryOperation) (l r : Clause) :
    (Clause.binary op l r).to_flux
      = (Clause.binary op l r).ensure_precedence l ++ (" " ++ op.value ++ " ")
        ++ (Clause.binary op l r).ensure_precedence r
    ∧ (∀ s : Clause,
        ((Clause.binary op l r).ensure_precedence s = "(" ++ s.to_flux ++ ")"
          ↔ (Clause.binary op l r).precedence < s.precedence))
    ∧ (∀ s : Clause,
        (Clause.binary op l r).ensure_precedence s = "(" ++ s.to_flux ++ ")"
        ∨ (Clause.binary op l r).ensure_precedence s = s.to_flux)
    ∧ (∀ b, (Clause.literal b).precedence = 0)
    ∧ (∀ co n e, (Clause.comparison co n e).precedence = 7)
    ∧ (∀ l2 r2, (Clause.binary .AND l2 r2).precedence = 9)
    ∧ (∀ l2 r2, (Clause.binary .OR l2 r2).precedence = 10) := by
  refine ⟨rfl, fun s => ⟨fun h => ?_, fun h => ?_⟩, fun s => ?_, fun b => rfl,
    fun co n e => rfl, fun l2 r2 => rfl, fun l2 r2 => rfl⟩
  · by_cases hb : Clause.should_parenthesize (.binary op l r) s = true
    · exact of_decide_eq_true hb
    · exfalso
      simp only [Bool.not_eq_true] at hb
      rw [Clause.ensure_precedence, hb] at h
      simp only [Bool.false_eq_true, if_false] at h
      exact paren_wrap_ne s.to_flux h
  · have hb : Clause.should_parenthesize (.binary op l r) s = true := decide_eq_true h
    rw [Clause.ensure_precedence, hb]
    simp
  · by_cases hb : Clause.should_parenthesize (.binary op l r) s = true
    · left
      rw [Clause.ensure_precedence, hb]
      simp
    · right
      simp only [Bool.not_eq_true] at hb
      rw [Clause.ensure_precedence, hb]
      simp

/-- C2 counterexample: with A the clause true or false, B the literal true
and C the literal false, the clause (A and B) or C renders to
(true or false) and true or false — the nested A is parenthesized inside
the AND — which is not the concatenation A and B or C of the three
renderings. -/
theorem C2_and_or_text_counterexample :
    (Clause.binary .OR
        (Clause.binary .AND (Clause.binary .OR (.literal true) (.literal false)) (.literal true))
        (.literal false)).to_flux
      = "(true or false) and true or false"
    ∧ ¬ ((Clause.binary .OR
        (Clause.binary .AND (Clause.binary .OR (.literal true) (.literal false)) (.literal true))
        (.literal false)).to_flux
      = (Clause.binary .OR (.literal true) (.literal false)).to_flux ++ " and "
        ++ (Clause.literal true).to_flux ++ " or " ++ (Clause.literal false).to_flux) := by
  constructor
  · decide
  · decide

/-- C2 amended: for clauses A, B, C where neither A nor B is an OR clause
(precedence at most 9), rendering (A and B) or C produces exactly the text
A and B or C; and for all A, B, C the left operand A and B of the OR is
itself never parenthesized. -/
theorem C2_and_or_text_amended (A B C : Clause)
    (hA : A.precedence ≤ 9) (hB : B.precedence ≤ 9) :
    (Clause.binary .OR (Clause.binary .AND A B) C).to_flux
      = A.to_flux ++ " and " ++ B.to_flux ++ " or " ++ C.to_flux
    ∧ (∀ A2 B2 C2 : Clause,
        (Clause.binary .OR (Clause.binary .AND A2 B2) C2).ensure_precedence
            (Clause.binary .AND A2 B2)
          = (Clause.binary .AND A2 B2).to_flux) := by
  have e1 : Clause.should_parenthesize (.binary .OR (.binary .AND A B) C) (.binary .AND A B)
      = false := rfl
  have e2 : Clause.should_parenthesize (.binary .OR (.binary .AND A B) C) C = false := by
    have hC := Clause.precedence_le_ten C
    refine decide_eq_false ?_
    have h10 : (Clause.binary .OR (Clause.binary .AND A B) C).precedence = 10 := rfl
    rw [h10]
    omega
  have e3 : Clause.should_parenthesize (.binary .AND A B) A = false := by
    refine decide_eq_false ?_
    have h9 : (Clause.binary .AND A B).precedence = 9 := rfl
    rw [h9]
    omega
  have e4 : Clause.should_parenthesize (.binary .AND A B) B = false := by
    refine decide_eq_false ?_
    have h9 : (Clause.binary .AND A B).precedence = 9 := rfl
    rw [h9]
    omega
  have hAB : (Clause.binary .AND A B).to_flux = A.to_flux ++ " and " ++ B.to_flux := by
    simp only [Clause.to_flux, e3, e4, Bool.false_eq_true, if_false, BinaryOperation.value]
    rfl
  have hTop : (Clause.binary .OR (Clause.binary .AND A B) C).to_flux
      = (Clause.binary .AND A B).to_flux ++ " or " ++ C.to_flux := by
    simp only [Clause.to_flux, e1, e2, e3, e4, Bool.false_eq_true, if_false, BinaryOperation.value]
    rfl
  refine ⟨?_, fun A2 B2 C2 => rfl⟩
  rw [hTop, hAB]

/-- C2 witness: the amended statement at three concrete comparison
clauses, matching the combination test of the source repository. -/
theorem C2_and_or_text_witness :
    (Clause.binary .OR
        (Clause.binary .AND (Clause.comparison .EQ "topic" ⟨"test_topic"⟩)
          (Clause.comparison .EQ "topic" ⟨"other_test_topic"⟩))
        (Clause.comparison .EQ "topic" ⟨"or_topic"⟩)).to_flux
      = (Clause.comparison .EQ "topic" (⟨"test_topic"⟩ : Expression)).to_flux ++ " and "
        ++ (Clause.comparison .EQ "topic" (⟨"other_test_topic"⟩ : Expression)).to_flux ++ " or "
        ++ (Clause.comparison .EQ "topic" (⟨"or_topic"⟩ : Expression)).to_flux :=
  (C2_and_or_text_amended
    (Clause.comparison .EQ "topic" ⟨"test_topic"⟩)
    (Clause.comparison .EQ "topic" ⟨"other_test_topic"⟩)
    (Clause.comparison .EQ "topic" ⟨"or_topic"⟩)
    (by decide) (by decide)).1

/-- The comparison items conform builds from a mapping: each pair renders
to an equality comparison, and none of them can fail. -/
theorem conform_items (row : Row) (l : List (String × String)) :
    l.mapM (fun kv => Field.eq (Row.getItem row kv.1) (PyValue.strOf kv.2))
      = .ok (l.map (fun kv => Clause.comparison .EQ kv.1 ⟨kv.2⟩)) := by
  induction l with
  | nil => rfl
  | cons x xs ih =>
    rw [List.mapM_cons, ih]
    rfl

/-- C10: on the empty mapping the predicate conform returns fails (the
reduce of an empty iterable with no initial value raises), on the empty
values list the predicate any returns fails the same way, and conform
produces a clause for every mapping with at least one pair. -/
theorem C10_empty_helpers (T : Type) (row : Row) (test : T → Row → Except String Clausable) :
    conform [] row = .error "reduce() of empty iterable with no initial value"
    ∧ any test [] row = .error "reduce() of empty iterable with no initial value"
    ∧ (∀ (kv : String × String) (kvs : List (String × String)), ∃ c : Clause,
        conform (kv :: kvs) row = .ok c) := by
  refine ⟨rfl, rfl, fun kv kvs =>
    ⟨(kvs.map (fun p => Clause.comparison .EQ p.1 ⟨p.2⟩)).foldl
      (fun acc cur => Clause.and acc (Clausable.clause cur))
      (Clause.comparison .EQ kv.1 ⟨kv.2⟩), ?_⟩⟩
  simp only [conform]
  rw [conform_items row (kv :: kvs)]
  rfl

end Fluxy
